import Mathlib

/-!
Shallow embedding of the DNFileVault downloader scripts.

This file embeds the core of the `dnfilevault_scripts` repository
(`public_scripts/python_scripts/*.py`) in Lean 4 and proves properties of the
embedded functions: naming sanitization, recency filtering, endpoint discovery
and health probing, and the per-file dual-source fetch protocol.

Python strings are embedded as `List Char`, the filesystem as a map from paths
to byte contents, and the network as an explicit oracle passed to each
function.  Machine-level concerns (actual sockets, real clocks, progress
printing) are outside the embedding; every network call is represented by the
oracle's answer for the requested URL.
-/

/-- Python `str` is embedded as a list of characters. -/
abbrev Str := List Char

/-- Byte contents of a file or of one streamed chunk. -/
abbrev Bytes := List Nat

/-- Whitespace characters stripped by Python `str.strip()` and matched by
the regex class `\s` (the ASCII members of Python's whitespace set). -/
def isPyWs (c : Char) : Bool :=
  c = ' ' || c = '\t' || c = '\n' || c = '\r' || c = '\x0b' || c = '\x0c'

/-- Python `str.strip()`: drop leading and trailing whitespace. -/
def pyStrip (s : Str) : Str := List.rdropWhile isPyWs (s.dropWhile isPyWs)

/-- The character class `[<>:"/\\|?*]` that every sanitizer in the repository
replaces with an underscore (`re.sub(r'[<>:"/\\|?*]', "_", ...)`;
`download_all_python.py` and `download_all_linux.py` write the class as
`[<>:"/\\\\|?*]`, which denotes the same set of characters). -/
def isBadChar (c : Char) : Bool :=
  c = '<' || c = '>' || c = ':' || c = '"' || c = '/' || c = '\\' ||
  c = '|' || c = '?' || c = '*'

/-- Replacement of one character performed by the `re.sub` above. -/
def replChar (c : Char) : Char := if isBadChar c then '_' else c

/-- `re.sub(r'[<>:"/\\|?*]', "_", s)`. -/
def replaceBad (s : Str) : Str := s.map replChar

/-- The set `{' ', '.'}` stripped from the right by `rstrip(" .")`. -/
def isDotSpace (c : Char) : Bool := c = ' ' || c = '.'

/-- Placeholder `"unnamed"` of `sanitize_file_or_folder_name`. -/
def unnamedStr : Str := "unnamed".toList

/-- Placeholder `"unnamed_file"` of `sanitize_filename`. -/
def unnamedFileStr : Str := "unnamed_file".toList

/-- Placeholder `"file"` of `safe_name`. -/
def fileStr : Str := "file".toList

/-- Embeds `sanitize_file_or_folder_name` from `download_all_python.py`
(lines 83-104): strip surrounding whitespace, map empty input to
`"unnamed"`, replace the invalid character class with underscores, strip
trailing dots and spaces, map empty results to `"unnamed"`, and truncate
names longer than 150 characters, stripping trailing dots and spaces again
after the cut (the source's `name[:150].rstrip(" .")`). -/
def sanitize_file_or_folder_name (name : Str) : Str :=
  let n1 := pyStrip name
  if n1 = [] then unnamedStr
  else
    let n2 := replaceBad n1
    let n3 := List.rdropWhile isDotSpace n2
    if n3 = [] then unnamedStr
    else if 150 < n3.length then List.rdropWhile isDotSpace (n3.take 150)
    else n3

/-- Embeds `safe_name` from `download_groups_linux.py` (lines 59-64) and
`download_all_linux.py` (line 41-42):
`re.sub(r'[<>:"/\\|?*]', "_", (name or "")).strip() or "file"`. -/
def safe_name (name : Str) : Str :=
  let n := pyStrip (replaceBad name)
  if n = [] then fileStr else n

/-- Embeds `sanitize_filename` from `download_allfiles_linux_discovery.py`
(lines 126-131).  The argument is optional because callers pass values that
may be Python `None`; `if not name` treats `None` and `""` alike. -/
def sanitize_filename (name : Option Str) : Str :=
  match name with
  | none => unnamedFileStr
  | some s =>
    if s = [] then unnamedFileStr
    else
      let clean := replaceBad s
      if pyStrip clean = [] then unnamedFileStr else pyStrip clean

/-- Python truthiness of an optional string: `None` and `""` are falsy. -/
def truthyStr : Option Str → Option Str
  | none => none
  | some s => if s = [] then none else some s

/-- Python `a or b` on optional strings. -/
def pyOrOpt (a b : Option Str) : Option Str :=
  match truthyStr a with
  | some s => some s
  | none => b

/-! ## Timestamps

`parse_created_at` in `download_groups_linux.py` and `parse_created_at_utc`
in `download_all_linux.py` both call
`datetime.strptime(value, "%Y-%m-%d %H:%M:%S")` and attach `timezone.utc`.
CPython's `_strptime` compiles the format to a regex: `%Y` is `\d\d\d\d`,
`%m` is `1[0-2]|0[1-9]|[1-9]`, `%d` is `3[01]|[12]\d|0[1-9]|[1-9]`,
`%H` is `2[0-3]|[0-1]\d|\d`, `%M` and `%S` are `[0-5]\d|\d`, a literal
whitespace in the format becomes `\s+`, and parsing fails if the whole input
is not consumed.  For these particular alternations, an alternative that
matches locally can never be traded for a later one by backtracking (each
shorter alternative leaves a digit in front of a non-digit literal), so the
ordered committed choice below is equivalent to the regex.  The resulting
values then pass through the `datetime` constructor, which rejects year 0
and a day beyond the length of the month; `ValueError` is the `none` case. -/

/-- Value of an ASCII digit character. -/
def digitVal (c : Char) : Nat := c.toNat - 48

/-- `%Y`: exactly four digits. -/
def parseY : Str → Option (Nat × Str)
  | a :: b :: c :: d :: rest =>
    if a.isDigit && b.isDigit && c.isDigit && d.isDigit then
      some (((digitVal a * 10 + digitVal b) * 10 + digitVal c) * 10 + digitVal d, rest)
    else none
  | _ => none

/-- `%m`: `1[0-2]|0[1-9]|[1-9]`. -/
def parseMonth : Str → Option (Nat × Str)
  | a :: b :: rest =>
    if a = '1' && ('0' ≤ b && b ≤ '2') then some (10 + digitVal b, rest)
    else if a = '0' && ('1' ≤ b && b ≤ '9') then some (digitVal b, rest)
    else if '1' ≤ a && a ≤ '9' then some (digitVal a, b :: rest)
    else none
  | [a] => if '1' ≤ a && a ≤ '9' then some (digitVal a, []) else none
  | [] => none

/-- `%d`: `3[01]|[12]\d|0[1-9]|[1-9]`. -/
def parseDay : Str → Option (Nat × Str)
  | a :: b :: rest =>
    if a = '3' && ('0' ≤ b && b ≤ '1') then some (30 + digitVal b, rest)
    else if ('1' ≤ a && a ≤ '2') && b.isDigit then some (digitVal a * 10 + digitVal b, rest)
    else if a = '0' && ('1' ≤ b && b ≤ '9') then some (digitVal b, rest)
    else if '1' ≤ a && a ≤ '9' then some (digitVal a, b :: rest)
    else none
  | [a] => if '1' ≤ a && a ≤ '9' then some (digitVal a, []) else none
  | [] => none

/-- `%H`: `2[0-3]|[0-1]\d|\d`. -/
def parseHour : Str → Option (Nat × Str)
  | a :: b :: rest =>
    if a = '2' && ('0' ≤ b && b ≤ '3') then some (20 + digitVal b, rest)
    else if ('0' ≤ a && a ≤ '1') && b.isDigit then some (digitVal a * 10 + digitVal b, rest)
    else if a.isDigit then some (digitVal a, b :: rest)
    else none
  | [a] => if a.isDigit then some (digitVal a, []) else none
  | [] => none

/-- `%M` and `%S`: `[0-5]\d|\d`. -/
def parseSixty : Str → Option (Nat × Str)
  | a :: b :: rest =>
    if ('0' ≤ a && a ≤ '5') && b.isDigit then some (digitVal a * 10 + digitVal b, rest)
    else if a.isDigit then some (digitVal a, b :: rest)
    else none
  | [a] => if a.isDigit then some (digitVal a, []) else none
  | [] => none

/-- A literal character of the format. -/
def parseLit (c : Char) : Str → Option Str
  | x :: rest => if x = c then some rest else none
  | [] => none

/-- A literal whitespace in the format, compiled by `_strptime` to `\s+`. -/
def parseWs : Str → Option Str
  | x :: rest => if isPyWs x then some (rest.dropWhile isPyWs) else none
  | [] => none

/-- Gregorian leap year, as used by `datetime`. -/
def isLeapYear (y : Nat) : Bool := y % 4 = 0 && (y % 100 ≠ 0 || y % 400 = 0)

/-- Length of a month, as validated by the `datetime` constructor. -/
def daysInMonth (y m : Nat) : Nat :=
  if m = 2 then (if isLeapYear y then 29 else 28)
  else if m = 4 || m = 6 || m = 9 || m = 11 then 30
  else 31

/-- A `datetime.datetime` value (with `tzinfo=timezone.utc` throughout, so
the timezone field is omitted; microseconds are 0 under this format). -/
structure PyDateTime where
  year : Nat
  month : Nat
  day : Nat
  hour : Nat
  minute : Nat
  second : Nat
deriving DecidableEq

/-- Serialized ordering key.  For field values within `datetime`'s ranges
(month 1-12, day 1-31, hour < 24, minute and second < 60) comparing keys is
the same as Python's lexicographic comparison of datetimes that share a
timezone. -/
def PyDateTime.key (t : PyDateTime) : Nat :=
  ((((t.year * 12 + (t.month - 1)) * 31 + (t.day - 1)) * 24 + t.hour) * 60 +
      t.minute) * 60 + t.second

/-- Embeds `parse_created_at` (`download_groups_linux.py`, lines 67-77) and
the body of `parse_created_at_utc` (`download_all_linux.py`, lines 45-47):
`datetime.strptime(value, "%Y-%m-%d %H:%M:%S")`, `none` on `ValueError`. -/
def parse_created_at (s : Str) : Option PyDateTime := do
  let (y, r1) ← parseY s
  let r2 ← parseLit '-' r1
  let (mo, r3) ← parseMonth r2
  let r4 ← parseLit '-' r3
  let (d, r5) ← parseDay r4
  let r6 ← parseWs r5
  let (h, r7) ← parseHour r6
  let r8 ← parseLit ':' r7
  let (mi, r9) ← parseSixty r8
  let r10 ← parseLit ':' r9
  let (sec, r11) ← parseSixty r10
  if r11 = [] && 1 ≤ y && d ≤ daysInMonth y mo then
    some ⟨y, mo, d, h, mi, sec⟩
  else none

/-! ## File records and recency filtering -/

/-- A file record as listed by the API (`files` entries).  Fields are
optional because the scripts read them with `dict.get`. -/
structure FileRecord where
  uuid_filename : Option Str
  display_name : Option Str
  created_at : Option Str
  cloud_share_link : Option Str
deriving DecidableEq

/-- One record's fate under the date filter of `download_groups_linux.py`
`main` (lines 246-255): records with a falsy `created_at` are dropped, then
`parse_created_at` is applied and the record is kept only when it parsed and
`ca_date >= cutoff`. -/
def keepRecentGroups (cutoff : PyDateTime) (f : FileRecord) : Bool :=
  match truthyStr f.created_at with
  | none => false
  | some s =>
    match parse_created_at s with
    | none => false
    | some t => decide (cutoff.key ≤ t.key)

/-- The date-filter stage of `download_groups_linux.py` `main` (lines
245-257): with no cutoff every record passes, otherwise the list is filtered
by `keepRecentGroups`. -/
def filterRecencyGroups (cutoff : Option PyDateTime) (files : List FileRecord) :
    List FileRecord :=
  match cutoff with
  | none => files
  | some c => files.filter (keepRecentGroups c)

/-- One record's fate under the date filter of `download_all_linux.py` `main`
(lines 166-172 and 200-206): the record is skipped only when `created_at` is
truthy, parses, and the parsed instant is strictly before the cutoff; a
`ValueError` from parsing hits `except Exception: pass` and the record is
still downloaded. -/
def keepFileAllLinux (cutoff : Option PyDateTime) (f : FileRecord) : Bool :=
  match cutoff with
  | none => true
  | some c =>
    match truthyStr f.created_at with
    | none => true
    | some s =>
      match parse_created_at s with
      | none => true
      | some t => !decide (t.key < c.key)

/-! ## Filesystem and network model

The filesystem is a map from paths to file contents.  A network response is
either a transport exception or a status code together with the body chunks
that `iter_content` will yield; `interrupted = true` means the stream raises
a transport error after yielding those chunks (mid-body failure). -/

/-- Local filesystem: path to contents. -/
abbrev FS := Str → Option Bytes

/-- Write (create or truncate) a file. -/
def setFile (p : Str) (b : Bytes) (fs : FS) : FS :=
  fun q => if q = p then some b else fs q

/-- `os.remove` guarded by an existence check. -/
def removeFile (p : Str) (fs : FS) : FS :=
  fun q => if q = p then none else fs q

/-- `os.rename` / `Path.replace` / `os.replace` of `src` onto `dst`
(overwriting any existing `dst`, removing `src`). -/
def renameReplace (src dst : Str) (fs : FS) : FS :=
  fun q => if q = dst then fs src else if q = src then none else fs q

/-- Result of one HTTP GET. -/
inductive HttpResult where
  | exc : HttpResult
  | resp (status : Nat) (chunks : List Bytes) (interrupted : Bool) : HttpResult

/-- The network oracle: `cdn` answers the plain `requests.get`/unauthenticated
fetches of a cloud-share URL, `origin` answers the authenticated
`session.get` requests. -/
structure Net where
  cdn : Str → HttpResult
  origin : Str → HttpResult

/-- A log entry for one issued HTTP request. -/
inductive Req where
  | cdnGet (url : Str)
  | originGet (url : Str)
deriving DecidableEq

/-- Is the request an authenticated origin download? -/
def isOriginReq : Req → Bool
  | .originGet _ => true
  | .cdnGet _ => false

/-- Number of origin (fallback) download attempts in a request log. -/
def originAttempts (reqs : List Req) : Nat := (reqs.filter isOriginReq).length

/-- `os.path.join` / the `/` path operator on POSIX. -/
def pathJoin (dir name : Str) : Str := dir ++ '/' :: name

/-- The `".tmp"` in-progress suffix of `save_content`. -/
def dotTmp : Str := ".tmp".toList

/-- The `".part"` in-progress suffix of `download_stream` and
`save_stream_to_file`.  (`out_path.with_suffix(out_path.suffix + ".part")`
removes the last suffix and appends it back followed by `".part"`, which is
plain concatenation of `".part"`.) -/
def dotPart : Str := ".part".toList

/-! ## The per-file fetch of `download_allfiles_linux_discovery.py` -/

/-- Embeds `save_content` (`download_allfiles_linux_discovery.py`, lines
218-247): stream the body chunks (skipping falsy ones) into
`full_save_path + ".tmp"`, then remove any existing final file and rename
the temp file onto the final path.  If the stream is interrupted the
exception propagates (`Except.error`) with the partial `.tmp` file still on
disk — `save_content` itself has no cleanup handler. -/
def save_content (chunks : List Bytes) (interrupted : Bool) (full : Str) (fs : FS) :
    Except FS FS :=
  let tmp := full ++ dotTmp
  let fs1 := setFile tmp ((chunks.filter (fun c => c ≠ [])).flatten) fs
  if interrupted then .error fs1
  else .ok (renameReplace tmp full fs1)

/-- Failure classification of one fetch (the scripts log these situations). -/
inductive FailReason where
  | noDownloadIdentifier : FailReason
  | httpStatus (n : Nat) : FailReason
  | transport : FailReason
deriving DecidableEq

/-- Which source produced the downloaded bytes. -/
inductive Source where
  | cdn : Source
  | origin : Source
deriving DecidableEq

/-- The outcome of one per-file fetch. -/
inductive Outcome where
  | skipped : Outcome
  | downloaded (src : Source) : Outcome
  | failed (r : FailReason) : Outcome
deriving DecidableEq

/-- The API-server fallback phase of `download_file`
(`download_allfiles_linux_discovery.py`, lines 201-215): require a truthy
`uuid_filename`, then issue one authenticated GET of
`{base_url}/download/{uuid_filename}`; on HTTP 200 run `save_content`
(whose mid-stream exception is caught by the surrounding `except`),
otherwise log and give up on this file. -/
def download_file_api (net : Net) (base_url : Str) (uuid : Option Str) (full : Str)
    (fs : FS) (reqs : List Req) : Outcome × FS × List Req :=
  match truthyStr uuid with
  | none => (.failed .noDownloadIdentifier, fs, reqs)
  | some u =>
    let url := base_url ++ "/download/".toList ++ u
    match net.origin url with
    | .exc => (.failed .transport, fs, reqs ++ [.originGet url])
    | .resp status chunks interrupted =>
      if status = 200 then
        match save_content chunks interrupted full fs with
        | .ok fs1 => (.downloaded .origin, fs1, reqs ++ [.originGet url])
        | .error fs1 => (.failed .transport, fs1, reqs ++ [.originGet url])
      else (.failed (.httpStatus status), fs, reqs ++ [.originGet url])

/-- Embeds `download_file` (`download_allfiles_linux_discovery.py`, lines
174-215): resolve the target path from the sanitized display name (falling
back to `uuid_filename`), return immediately when the final path already
exists, otherwise try the cloud-share link with a plain unauthenticated
`requests.get` and fall back to the API server on any non-200 status or
exception (including a mid-stream failure inside `save_content`). -/
def download_file (net : Net) (base_url : Str) (f : FileRecord) (save_directory : Str)
    (fs : FS) : Outcome × FS × List Req :=
  let uuid := f.uuid_filename
  let display := pyOrOpt f.display_name uuid
  let safe := sanitize_filename display
  let full := pathJoin save_directory safe
  if (fs full).isSome then (.skipped, fs, [])
  else
    match truthyStr f.cloud_share_link with
    | some curl =>
      match net.cdn curl with
      | .exc => download_file_api net base_url uuid full fs [.cdnGet curl]
      | .resp status chunks interrupted =>
        if status = 200 then
          match save_content chunks interrupted full fs with
          | .ok fs1 => (.downloaded .cdn, fs1, [.cdnGet curl])
          | .error fs1 => download_file_api net base_url uuid full fs1 [.cdnGet curl]
        else download_file_api net base_url uuid full fs [.cdnGet curl]
    | none => download_file_api net base_url uuid full fs []

/-- The target path `download_file` resolves for a record. -/
def downloadFileTarget (f : FileRecord) (save_directory : Str) : Str :=
  pathJoin save_directory (sanitize_filename (pyOrOpt f.display_name f.uuid_filename))

/-! ## The per-file fetch of `download_groups_linux.py` -/

/-- Outcome of `download_stream` (the source only logs; the constructors
name its three exit paths). -/
inductive DSOutcome where
  | skip : DSOutcome
  | success : DSOutcome
  | error : DSOutcome
deriving DecidableEq

/-- Embeds `download_stream` (`download_groups_linux.py`, lines 80-111):
skip when `out_path` exists; otherwise stream the authenticated GET into
`out_path + ".part"` and rename it onto `out_path` on success
(`raise_for_status` raises for status ≥ 400); on any exception remove the
temp file if it exists. -/
def download_stream (net : Net) (url : Str) (out_path : Str) (fs : FS) :
    DSOutcome × FS × List Req :=
  if (fs out_path).isSome then (.skip, fs, [])
  else
    let tmp := out_path ++ dotPart
    match net.origin url with
    | .exc => (.error, removeFile tmp fs, [.originGet url])
    | .resp status chunks interrupted =>
      if 400 ≤ status then (.error, removeFile tmp fs, [.originGet url])
      else
        let fs1 := setFile tmp ((chunks.filter (fun c => c ≠ [])).flatten) fs
        if interrupted then (.error, removeFile tmp fs1, [.originGet url])
        else (.success, renameReplace tmp out_path fs1, [.originGet url])

/-! ## Request headers

Only the two headers the spec talks about are tracked: the `Authorization`
bearer header and the custom identifying `User-Agent`.  A field holding
`none` means the request carries no such custom header. -/

/-- The custom headers attached to one HTTP request. -/
structure Headers where
  authorization : Option String
  userAgent : Option String
deriving DecidableEq

/-- The session headers of `download_all_python.py` after login
(`login_and_get_session`, lines 175-181 and 200): the custom `User-Agent`
plus `Authorization: Bearer <token>`. -/
def allPythonSessionHeaders (token : String) : Headers :=
  { authorization := some ("Bearer " ++ token),
    userAgent := some "DNFileVaultBulkDownloader/1.0" }

/-- Header merge performed by
`session.get(cloud_url, ..., headers={"Authorization": None})`
(`download_all_python.py` line 236, `download_all_linux.py` line 64,
`download_eodlevel2.py` line 63): `requests` merges the per-request headers
into the session headers and deletes every key mapped to `None`, so the
request goes out with the session's remaining headers and no
`Authorization`. -/
def cdnRequestHeaders (session : Headers) : Headers :=
  { session with authorization := none }

/-- The headers of the cloud-share request of
`download_allfiles_linux_discovery.py` (line 191): it calls the module-level
`requests.get(cloud_url, ...)`, not `session.get`, so neither the bearer
token nor the custom identifying `User-Agent` is attached. -/
def discoveryCdnRequestHeaders : Headers :=
  { authorization := none, userAgent := none }

/-! ## Endpoint discovery and health probing
(`download_allfiles_linux_discovery.py`) -/

/-- One entry of the discovery document's `endpoints` array; every field is
read with `dict.get` except `url`, which is read with `e["url"]` (a missing
`url` raises `KeyError`). -/
structure EndpointEntry where
  url : Option Str
  priority : Option Int
  label : Option Str
deriving DecidableEq

/-- The result of fetching the discovery document: a transport exception, or
a status plus the decoded `endpoints` array (`none` when `r.json()` raises
or the body has no usable shape). -/
inductive DiscoveryResult where
  | exc : DiscoveryResult
  | resp (status : Nat) (endpoints : Option (List EndpointEntry)) : DiscoveryResult

/-- `FALLBACK_ENDPOINTS` (`download_allfiles_linux_discovery.py`, lines
65-68). -/
def FALLBACK_ENDPOINTS : List Str :=
  ["https://api.dnfilevault.com".toList, "https://api-redmint.dnfilevault.com".toList]

/-- The sort key `lambda x: x.get("priority", 99)`. -/
def endpointSortKey (e : EndpointEntry) : Int := e.priority.getD 99

/-- The ordering relation `sorted` uses on entries: comparison of sort keys.
Python's `sorted` is a stable sort, as is `List.insertionSort`, so the two
agree on every list. -/
def prioLe (a b : EndpointEntry) : Prop := endpointSortKey a ≤ endpointSortKey b

instance : DecidableRel prioLe := fun a b => Int.decLe (endpointSortKey a) (endpointSortKey b)

instance : IsTotal EndpointEntry prioLe := ⟨fun a b => Int.le_total (endpointSortKey a) (endpointSortKey b)⟩

instance : IsTrans EndpointEntry prioLe := ⟨fun _ _ _ h₁ h₂ => le_trans h₁ h₂⟩

/-- Embeds `get_api_endpoints` (`download_allfiles_linux_discovery.py`,
lines 79-98): on HTTP 200 with a decodable body, sort the `endpoints` array
by `priority` (missing priority defaults to 99) and return the `url` of
every entry; a missing `url` raises `KeyError` inside the `try`, and any
exception or non-200 status falls back to `FALLBACK_ENDPOINTS`. -/
def get_api_endpoints (disc : DiscoveryResult) : List Str :=
  match disc with
  | .resp 200 (some entries) =>
    let endpoints := entries.insertionSort prioLe
    match endpoints.mapM (fun e => e.url) with
    | some urls => urls
    | none => FALLBACK_ENDPOINTS
  | _ => FALLBACK_ENDPOINTS

/-- The result of one health probe (`session.get(f"{url}/health")`): the
distinguished exception classes the source catches, or a status plus the
decoded body (`none` when `r.json()` raises, `some none` when the JSON has
no `"status"` key, `some (some s)` when `data.get("status")` is `s`). -/
inductive ProbeResult where
  | timeout : ProbeResult
  | connError : ProbeResult
  | otherError : ProbeResult
  | resp (status : Nat) (jsonStatus : Option (Option Str)) : ProbeResult

/-- The probe URL `f"{url}/health"`. -/
def healthUrl (u : Str) : Str := u ++ "/health".toList

/-- Whether one probe answer selects the endpoint
(`download_allfiles_linux_discovery.py`, lines 105-121): HTTP 200, a body
that decodes, and `data.get("status") == "healthy"`; everything else —
timeout, connection error, other exception, non-200, or a different
status value — is skipped. -/
def probeHealthy : ProbeResult → Bool
  | .resp 200 (some (some s)) => s = "healthy".toList
  | _ => false

/-- Embeds `find_working_api` (`download_allfiles_linux_discovery.py`, lines
101-123) instrumented with the list of probed endpoints: walk the endpoint
list in order, return the first healthy one, `none` when every probe
fails. -/
def find_working_api (probe : Str → ProbeResult) : List Str → Option Str × List Str
  | [] => (none, [])
  | url :: rest =>
    if probeHealthy (probe (healthUrl url)) then (some url, [url])
    else
      let r := find_working_api probe rest
      (r.1, url :: r.2)

/-! ## The per-group loop of `download_groups_linux.py` `main` -/

/-- A group as listed by `GET /groups` (named `ApiGroup` because `Group` is
taken by Mathlib). -/
structure ApiGroup where
  id : Option Nat
  name : Option Str
deriving DecidableEq

/-- The result of listing one group's files
(`session.get(f"{base_url}/groups/{gid}/files")` followed by
`raise_for_status` and JSON decoding): any exception is `err`. -/
inductive ListingResult where
  | err : ListingResult
  | ok (files : List FileRecord) : ListingResult

/-- The per-file download loop inside one group
(`download_groups_linux.py`, lines 264-274): records without a truthy
`uuid_filename` are skipped, every other record is fetched with
`download_stream` from `{base_url}/download/{uuid_filename}` into
`group_dir / safe_name(display_name or uuid_filename)`. -/
def downloadGroupFiles (net : Net) (base_url group_dir : Str) (fs : FS) :
    List FileRecord → FS
  | [] => fs
  | f :: rest =>
    match truthyStr f.uuid_filename with
    | none => downloadGroupFiles net base_url group_dir fs rest
    | some u =>
      let url := base_url ++ "/download/".toList ++ u
      let target := pathJoin group_dir (safe_name ((pyOrOpt f.display_name f.uuid_filename).getD []))
      downloadGroupFiles net base_url group_dir (download_stream net url target fs).2.1 rest

/-- Embeds the group loop of `download_groups_linux.py` `main` (lines
220-274), instrumented with the list of group ids whose file listing was
requested: groups without an id are skipped; a listing failure
(`except ... continue`, lines 239-241) abandons only that group; otherwise
the listed records pass the date filter and are downloaded into the group's
folder (`out_dir / safe_name(str(g.get("name") or gid))`). -/
def runGroups (net : Net) (lf : Nat → ListingResult) (cutoff : Option PyDateTime)
    (base_url out_dir : Str) (fs : FS) : List ApiGroup → FS × List Nat
  | [] => (fs, [])
  | g :: rest =>
    match g.id with
    | none => runGroups net lf cutoff base_url out_dir fs rest
    | some gid =>
      match lf gid with
      | .err =>
        let r := runGroups net lf cutoff base_url out_dir fs rest
        (r.1, gid :: r.2)
      | .ok files =>
        let gname := (pyOrOpt g.name (some (Nat.repr gid).toList)).getD []
        let group_dir := pathJoin out_dir (safe_name gname)
        let fs1 := downloadGroupFiles net base_url group_dir fs
          (filterRecencyGroups cutoff files)
        let r := runGroups net lf cutoff base_url out_dir fs1 rest
        (r.1, gid :: r.2)

/-- A failing CDN attempt as described by the fetch protocol: a transport
exception, a non-200 status, or a mid-stream interruption (which raises
inside the `try` and is likewise caught); only a complete HTTP 200 body is
a CDN success. -/
def cdnFails : HttpResult → Bool
  | .exc => true
  | .resp s _ interrupted => s ≠ 200 || interrupted

/-! ## Concrete fixtures used by witnesses and counterexamples -/

/-- The empty filesystem. -/
def fsEmpty : FS := fun _ => none

/-- A record with a cloud link whose first fetch succeeds via the CDN. -/
def w1rec : FileRecord :=
  ⟨some "u-1".toList, some "report.csv".toList, none, some "https://r2.example/u-1".toList⟩

/-- A network where the CDN answers 200 with a complete body. -/
def w1net : Net :=
  { cdn := fun _ => .resp 200 [[1, 2, 3]] false, origin := fun _ => .resp 404 [] false }

/-- A filesystem already holding `w1rec`'s target file. -/
def w1fsHave : FS :=
  fun p => if p = downloadFileTarget w1rec "/out".toList then some [9] else none

/-- A record carrying a cloud link but no `uuid_filename`. -/
def c2rec : FileRecord :=
  ⟨none, some "x.csv".toList, none, some "https://r2.example/x".toList⟩

/-- A network whose CDN answers 404 and whose origin answers 200. -/
def c2net : Net :=
  { cdn := fun _ => .resp 404 [] false, origin := fun _ => .resp 200 [[7]] false }

/-- A record with both a cloud link and a `uuid_filename`. -/
def w2rec : FileRecord :=
  ⟨some "u-2".toList, some "y.csv".toList, none, some "https://r2.example/y".toList⟩

/-- A network whose CDN answers 404 and whose origin streams two chunks. -/
def w2net : Net :=
  { cdn := fun _ => .resp 404 [] false, origin := fun _ => .resp 200 [[7], [8]] false }

/-- A record with a cloud link but no `uuid_filename`, used to exhibit the
leftover `.tmp` file of the discovery script. -/
def c3rec : FileRecord :=
  ⟨none, some "data.csv".toList, none, some "https://r2.example/d".toList⟩

/-- A network whose CDN answers 200 but fails mid-stream after one chunk. -/
def c3net : Net :=
  { cdn := fun _ => .resp 200 [[1, 2, 3]] true, origin := fun _ => .resp 200 [[9]] false }

/-- A network whose every request raises a transport exception. -/
def w3netErr : Net := { cdn := fun _ => .exc, origin := fun _ => .exc }

/-- A network whose origin streams a complete two-chunk body. -/
def w3netOk : Net :=
  { cdn := fun _ => .exc, origin := fun _ => .resp 200 [[4], [5]] false }

/-- A download URL fixture. -/
def w3url : Str := "https://api.example/download/u-3".toList

/-- An output path fixture. -/
def w3out : Str := "/out/f.csv".toList

/-- The cutoff instant 2024-01-10T00:00:00Z from the spec's boundary example. -/
def cutJan10 : PyDateTime := ⟨2024, 1, 10, 0, 0, 0⟩

/-- A record created exactly at the cutoff instant. -/
def recBoundary : FileRecord :=
  ⟨some "u1".toList, some "a.csv".toList, some "2024-01-10 00:00:00".toList, none⟩

/-- A record created one second before the cutoff instant. -/
def recBefore : FileRecord :=
  ⟨some "u2".toList, some "b.csv".toList, some "2024-01-09 23:59:59".toList, none⟩

/-- A record whose `created_at` does not parse. -/
def recBadStamp : FileRecord :=
  ⟨some "u3".toList, some "c.csv".toList, some "not a timestamp".toList, none⟩

/-- A record with no `created_at` at all. -/
def recNoStamp : FileRecord :=
  ⟨some "u4".toList, some "d.csv".toList, none, none⟩

/-- A network for the group-loop fixtures. -/
def c8net : Net :=
  { cdn := fun _ => .resp 200 [[1]] false, origin := fun _ => .resp 200 [[1]] false }

/-- A listing oracle that fails for group 2 and lists one record otherwise. -/
def c8lf : Nat → ListingResult :=
  fun gid => if gid = 2 then .err else .ok [recNoStamp]

/-- Group fixtures. -/
def c8g1 : ApiGroup := ⟨some 1, some "alpha".toList⟩

/-- The group whose listing fails. -/
def c8gBad : ApiGroup := ⟨some 2, some "beta".toList⟩

/-- A sibling group listed after the failing one. -/
def c8g3 : ApiGroup := ⟨some 3, some "gamma".toList⟩

/-! ## Toolkit lemmas about stripping and character replacement -/

theorem mem_of_mem_rdropWhile {α : Type} {p : α → Bool} {l : List α} {a : α}
    (h : a ∈ List.rdropWhile p l) : a ∈ l :=
  ( List.rdropWhile_prefix p l).sublist.subset h

theorem length_rdropWhile_le {α : Type} (p : α → Bool) (l : List α) :
    (List.rdropWhile p l).length ≤ l.length :=
  ( List.rdropWhile_prefix p l).sublist.length_le

theorem mem_of_mem_pyStrip {l : Str} {c : Char} (h : c ∈ pyStrip l) : c ∈ l :=
  (List.dropWhile_suffix isPyWs).sublist.subset (mem_of_mem_rdropWhile h)

theorem replChar_not_bad (c : Char) : isBadChar (replChar c) = false := by
  unfold replChar
  by_cases h : isBadChar c
  · simp only [h, if_true]
    decide
  · simp only [h, if_false]
    simpa using h

theorem mem_replaceBad_not_bad {l : Str} {c : Char} (h : c ∈ replaceBad l) :
    isBadChar c = false := by
  obtain ⟨a, _, rfl⟩ := List.mem_map.mp h
  exact replChar_not_bad a

theorem replaceBad_eq_self {l : Str} (h : ∀ c ∈ l, isBadChar c = false) :
    replaceBad l = l := by
  unfold replaceBad
  conv_rhs => rw [← List.map_id l]
  exact List.map_congr_left fun a ha => by simp [replChar, h a ha]

theorem pyStrip_idem (l : Str) : pyStrip (pyStrip l) = pyStrip l := by
  unfold pyStrip
  have hidem : List.dropWhile isPyWs (List.dropWhile isPyWs l) = List.dropWhile isPyWs l :=
    List.dropWhile_idempotent isPyWs l
  rcases hk : List.rdropWhile isPyWs (List.dropWhile isPyWs l) with _ | ⟨a, k⟩
  · simp
  · have hpre : List.rdropWhile isPyWs (List.dropWhile isPyWs l) <+:
        List.dropWhile isPyWs l := List.rdropWhile_prefix isPyWs _
    rw [hk] at hpre
    obtain ⟨t, ht⟩ := hpre
    have ha : isPyWs a = false := by
      by_contra hcon
      have ha' : isPyWs a = true := by
        revert hcon
        cases isPyWs a <;> simp
      have hthis := hidem
      rw [← ht] at hthis
      rw [List.cons_append, List.dropWhile_cons, if_pos ha'] at hthis
      have hlen : (List.dropWhile isPyWs (k ++ t)).length ≤ (k ++ t).length :=
        (List.dropWhile_suffix isPyWs).sublist.length_le
      rw [hthis] at hlen
      simp at hlen
    have hdw : List.dropWhile isPyWs (a :: k) = a :: k := by
      rw [List.dropWhile_cons, if_neg (by simp [ha])]
    rw [hdw, ← hk, List.rdropWhile_idempotent]

/-! ## Fixpoint and shape lemmas for the sanitizers -/

theorem safe_name_fix {y : Str} (hb : ∀ c ∈ y, isBadChar c = false)
    (hs : pyStrip y = y) (hne : y ≠ []) : safe_name y = y := by
  unfold safe_name
  rw [replaceBad_eq_self hb, hs]
  simp [hne]

theorem safe_name_idem (x : Str) : safe_name (safe_name x) = safe_name x := by
  by_cases h : pyStrip (replaceBad x) = []
  · have h1 : safe_name x = fileStr := by simp [safe_name, h]
    rw [h1]
    decide
  · have h1 : safe_name x = pyStrip (replaceBad x) := by simp [safe_name, h]
    rw [h1]
    exact safe_name_fix
      (fun c hc => mem_replaceBad_not_bad (mem_of_mem_pyStrip hc))
      (pyStrip_idem _) h

theorem sanitize_filename_fix {y : Str} (hb : ∀ c ∈ y, isBadChar c = false)
    (hs : pyStrip y = y) (hne : y ≠ []) : sanitize_filename (some y) = y := by
  simp only [sanitize_filename]
  rw [if_neg hne, replaceBad_eq_self hb, hs, if_neg hne]

theorem sanitize_filename_idem (n : Option Str) :
    sanitize_filename (some (sanitize_filename n)) = sanitize_filename n := by
  have hufs : sanitize_filename (some unnamedFileStr) = unnamedFileStr := by decide
  match n with
  | none => simpa [sanitize_filename] using hufs
  | some s =>
    by_cases hs : s = []
    · simp only [sanitize_filename, hs, if_pos rfl]
      simpa [sanitize_filename] using hufs
    · by_cases hc : pyStrip (replaceBad s) = []
      · have h1 : sanitize_filename (some s) = unnamedFileStr := by
          simp [sanitize_filename, hs, hc]
        rw [h1]
        exact hufs
      · have h1 : sanitize_filename (some s) = pyStrip (replaceBad s) := by
          simp [sanitize_filename, hs, hc]
        rw [h1]
        exact sanitize_filename_fix
          (fun c h => mem_replaceBad_not_bad (mem_of_mem_pyStrip h))
          (pyStrip_idem _) hc

theorem sanitize_ffn_no_bad (x : Str) :
    ∀ c ∈ sanitize_file_or_folder_name x, isBadChar c = false := by
  unfold sanitize_file_or_folder_name
  by_cases h1 : pyStrip x = []
  · simp only [h1, if_pos rfl]
    decide
  · simp only [h1, if_neg h1]
    by_cases h2 : List.rdropWhile isDotSpace (replaceBad (pyStrip x)) = []
    · simp only [h2, if_pos rfl]
      decide
    · simp only [if_neg h2]
      by_cases h3 : 150 < (List.rdropWhile isDotSpace (replaceBad (pyStrip x))).length
      · simp only [if_pos h3]
        intro c hc
        exact mem_replaceBad_not_bad
          (mem_of_mem_rdropWhile (List.take_subset 150 _ (mem_of_mem_rdropWhile hc)))
      · simp only [if_neg h3]
        intro c hc
        exact mem_replaceBad_not_bad (mem_of_mem_rdropWhile hc)

theorem sanitize_ffn_rstrip (x : Str) :
    List.rdropWhile isDotSpace (sanitize_file_or_folder_name x) =
      sanitize_file_or_folder_name x := by
  unfold sanitize_file_or_folder_name
  by_cases h1 : pyStrip x = []
  · simp only [h1, if_pos rfl]
    decide
  · simp only [if_neg h1]
    by_cases h2 : List.rdropWhile isDotSpace (replaceBad (pyStrip x)) = []
    · simp only [h2, if_pos rfl]
      decide
    · simp only [if_neg h2]
      by_cases h3 : 150 < (List.rdropWhile isDotSpace (replaceBad (pyStrip x))).length
      · simp only [if_pos h3]
        exact List.rdropWhile_idempotent isDotSpace _
      · simp only [if_neg h3]
        exact List.rdropWhile_idempotent isDotSpace _

theorem sanitize_ffn_len (x : Str) : (sanitize_file_or_folder_name x).length ≤ 150 := by
  unfold sanitize_file_or_folder_name
  by_cases h1 : pyStrip x = []
  · simp only [h1, if_pos rfl]
    decide
  · simp only [if_neg h1]
    by_cases h2 : List.rdropWhile isDotSpace (replaceBad (pyStrip x)) = []
    · simp only [h2, if_pos rfl]
      decide
    · simp only [if_neg h2]
      by_cases h3 : 150 < (List.rdropWhile isDotSpace (replaceBad (pyStrip x))).length
      · simp only [if_pos h3]
        refine le_trans (length_rdropWhile_le isDotSpace _) ?_
        rw [List.length_take]
        omega
      · simp only [if_neg h3]
        omega

theorem sanitize_ffn_placeholder {x : Str} (h : pyStrip x = []) :
    sanitize_file_or_folder_name x = unnamedStr := by
  simp [sanitize_file_or_folder_name, h]

theorem sanitize_ffn_ne_nil {x : Str}
    (h : (List.rdropWhile isDotSpace (replaceBad (pyStrip x))).length ≤ 150) :
    sanitize_file_or_folder_name x ≠ [] := by
  unfold sanitize_file_or_folder_name
  by_cases h1 : pyStrip x = []
  · simp only [h1, if_pos rfl]
    decide
  · simp only [if_neg h1]
    by_cases h2 : List.rdropWhile isDotSpace (replaceBad (pyStrip x)) = []
    · simp only [h2, if_pos rfl]
      decide
    · simp only [if_neg h2, if_neg (not_lt.mpr h)]
      exact h2

theorem sanitize_ffn_fix {y : Str} (hs : pyStrip y = y) (hne : y ≠ [])
    (hb : ∀ c ∈ y, isBadChar c = false)
    (hr : List.rdropWhile isDotSpace y = y) (hlen : y.length ≤ 150) :
    sanitize_file_or_folder_name y = y := by
  unfold sanitize_file_or_folder_name
  rw [hs]
  simp only [if_neg hne]
  rw [replaceBad_eq_self hb, hr]
  simp only [if_neg hne, if_neg (not_lt.mpr hlen)]

/-! ## Claim C9 — sanitizer output shape -/

/-- C9: for every input string, `sanitize_file_or_folder_name` returns a name
with none of the characters `< > : " / \ | ? *`, no trailing dots or spaces,
and length at most 150; empty or whitespace-only input maps to the fixed
placeholder `"unnamed"`; and the output is non-empty whenever the cleaned
name (stripped, replaced, right-stripped) fits within the 150-character cap,
i.e. whenever no truncation happens.  (Amended from the original claim: when
the cleaned name exceeds 150 characters and its first 150 characters are all
dots and spaces, the truncating `name[:150].rstrip(" .")` produces the empty
string, so unconditional non-emptiness fails; see the counterexample.) -/
theorem spec_c9_sanitize_shape (x : Str) :
    (∀ c ∈ sanitize_file_or_folder_name x, isBadChar c = false) ∧
    List.rdropWhile isDotSpace (sanitize_file_or_folder_name x) =
      sanitize_file_or_folder_name x ∧
    (sanitize_file_or_folder_name x).length ≤ 150 ∧
    (pyStrip x = [] → sanitize_file_or_folder_name x = unnamedStr) ∧
    ((List.rdropWhile isDotSpace (replaceBad (pyStrip x))).length ≤ 150 →
      sanitize_file_or_folder_name x ≠ []) :=
  ⟨sanitize_ffn_no_bad x, sanitize_ffn_rstrip x, sanitize_ffn_len x,
    fun h => sanitize_ffn_placeholder h, fun h => sanitize_ffn_ne_nil h⟩

set_option maxRecDepth 4096 in
/-- C9 counterexample: on 150 dots followed by `'a'`, the name survives every
emptiness check (it ends in `'a'`), is truncated to 150 dots, and the final
`rstrip(" .")` erases everything — the function returns the empty string,
refuting the claim's unconditional non-emptiness. -/
theorem spec_c9_counterexample :
    sanitize_file_or_folder_name (List.replicate 150 '.' ++ ['a']) = [] := by
  decide

/-- C9 witness: concrete instances of `spec_c9_sanitize_shape`, including the
spec's own example input. -/
theorem spec_c9_witness :
    sanitize_file_or_folder_name "Q1 Report: /Final*.csv".toList ≠ [] ∧
    sanitize_file_or_folder_name "   ".toList = unnamedStr ∧
    (sanitize_file_or_folder_name "Q1 Report: /Final*.csv".toList).length ≤ 150 :=
  ⟨(spec_c9_sanitize_shape _).2.2.2.2 (by decide),
    (spec_c9_sanitize_shape _).2.2.2.1 (by decide),
    (spec_c9_sanitize_shape _).2.2.1⟩

/-! ## Claim C10 — sanitizer idempotence -/

/-- C10: `safe_name` and `sanitize_filename` are idempotent for every input;
`sanitize_file_or_folder_name` is idempotent on every input whose output is
non-empty and already whitespace-stripped.  (Amended from the original
claim: unrestricted idempotence fails for `sanitize_file_or_folder_name`
because the empty output of the truncation edge case re-sanitizes to
`"unnamed"`, and a truncation cut can expose a trailing tab or newline that
only the second application strips; see the counterexample.) -/
theorem spec_c10_sanitize_idem (x : Str) (n : Option Str) :
    safe_name (safe_name x) = safe_name x ∧
    sanitize_filename (some (sanitize_filename n)) = sanitize_filename n ∧
    (pyStrip (sanitize_file_or_folder_name x) = sanitize_file_or_folder_name x →
      sanitize_file_or_folder_name x ≠ [] →
      sanitize_file_or_folder_name (sanitize_file_or_folder_name x) =
        sanitize_file_or_folder_name x) :=
  ⟨safe_name_idem x, sanitize_filename_idem n,
    fun hs hne => sanitize_ffn_fix hs hne (sanitize_ffn_no_bad x)
      (sanitize_ffn_rstrip x) (sanitize_ffn_len x)⟩

/-- C10 counterexample: `"a\t.."` sanitizes to `"a\t"` (the `rstrip(" .")`
stops at the tab), and sanitizing that again strips the tab, giving `"a"` —
so `sanitize(sanitize(x))` differs from `sanitize(x)`. -/
theorem spec_c10_counterexample :
    sanitize_file_or_folder_name (sanitize_file_or_folder_name ['a', '\t', '.', '.']) ≠
      sanitize_file_or_folder_name ['a', '\t', '.', '.'] := by
  decide

/-- C10 witness: concrete instances of `spec_c10_sanitize_idem`. -/
theorem spec_c10_witness :
    safe_name (safe_name "Q1 Report: /Final*.csv".toList) =
      safe_name "Q1 Report: /Final*.csv".toList ∧
    sanitize_file_or_folder_name (sanitize_file_or_folder_name "report 2024.csv".toList) =
      sanitize_file_or_folder_name "report 2024.csv".toList :=
  ⟨(spec_c10_sanitize_idem "Q1 Report: /Final*.csv".toList none).1,
    (spec_c10_sanitize_idem "report 2024.csv".toList none).2.2 (by decide) (by decide)⟩

/-! ## Claim C4 — recency filtering -/

theorem parse_created_at_nil : parse_created_at [] = none := rfl

theorem keepRecentGroups_iff (c : PyDateTime) (f : FileRecord) :
    keepRecentGroups c f = true ↔
      ∃ s t, f.created_at = some s ∧ parse_created_at s = some t ∧
        c.key ≤ t.key := by
  unfold keepRecentGroups truthyStr
  rcases f.created_at with _ | s
  · simp
  · by_cases hs : s = []
    · subst hs
      simp [parse_created_at_nil]
    · simp only [if_neg hs]
      rcases hp : parse_created_at s with _ | t
      · simp [hp]
      · simp [hp, decide_eq_true_eq]

/-- C4: the recency filter of `download_groups_linux.py` keeps exactly the
records whose `created_at` parses under the fixed naive format and lies
at-or-after the cutoff (boundary included), silently excluding missing and
unparseable timestamps, and passes everything when no cutoff is set; the
filter of `download_all_linux.py` is boundary-inclusive on parseable
timestamps and passes everything without a cutoff, but *keeps* (fails open
on) records whose `created_at` is missing or fails to parse.  (Amended from
the original claim, whose fail-closed exclusion holds only for the groups
script; `download_all_linux.py` reaches `except Exception: pass` and still
downloads the record — see the counterexample.) -/
theorem spec_c4_recency_filter (c : PyDateTime) (files : List FileRecord)
    (f : FileRecord) :
    filterRecencyGroups none files = files ∧
    keepFileAllLinux none f = true ∧
    (f ∈ filterRecencyGroups (some c) files ↔
      f ∈ files ∧ ∃ s t, f.created_at = some s ∧ parse_created_at s = some t ∧
        c.key ≤ t.key) ∧
    (f.created_at = none → keepFileAllLinux (some c) f = true) ∧
    (∀ s, f.created_at = some s → parse_created_at s = none →
      keepFileAllLinux (some c) f = true) ∧
    (∀ s t, f.created_at = some s → s ≠ [] → parse_created_at s = some t →
      (keepFileAllLinux (some c) f = true ↔ c.key ≤ t.key)) := by
  refine ⟨rfl, rfl, ?_, ?_, ?_, ?_⟩
  · rw [show filterRecencyGroups (some c) files = files.filter (keepRecentGroups c) from rfl,
      List.mem_filter, keepRecentGroups_iff]
  · intro h
    unfold keepFileAllLinux truthyStr
    rw [h]
  · intro s hs hp
    unfold keepFileAllLinux truthyStr
    rw [hs]
    by_cases hnil : s = []
    · simp [hnil]
    · simp [hnil, hp]
  · intro s t hs hnil hp
    unfold keepFileAllLinux truthyStr
    rw [hs]
    simp [hnil, hp]

/-- C4 counterexample: under an active cutoff, `download_all_linux.py` still
downloads a record whose `created_at` fails to parse and one with no
`created_at` — the claim says both must be excluded. -/
theorem spec_c4_counterexample :
    keepFileAllLinux (some cutJan10) recBadStamp = true ∧
    keepFileAllLinux (some cutJan10) recNoStamp = true := by
  decide

/-- C4 witness: the spec's boundary example — with cutoff
2024-01-10T00:00:00Z a record stamped `"2024-01-10 00:00:00"` is kept, one
stamped `"2024-01-09 23:59:59"` is dropped, and without a cutoff everything
passes. -/
theorem spec_c4_witness :
    recBoundary ∈ filterRecencyGroups (some cutJan10) [recBefore, recBoundary] ∧
    recBefore ∉ filterRecencyGroups (some cutJan10) [recBefore, recBoundary] ∧
    filterRecencyGroups none [recBefore, recBoundary] = [recBefore, recBoundary] := by
  refine ⟨?_, ?_, (spec_c4_recency_filter cutJan10 [recBefore, recBoundary] recBoundary).1⟩
  · exact (spec_c4_recency_filter cutJan10 [recBefore, recBoundary] recBoundary).2.2.1.mpr
      ⟨by decide, "2024-01-10 00:00:00".toList, ⟨2024, 1, 10, 0, 0, 0⟩, rfl,
        by decide, by decide⟩
  · intro h
    obtain ⟨-, s, t, hca, hp, hle⟩ :=
      (spec_c4_recency_filter cutJan10 [recBefore, recBoundary] recBefore).2.2.1.mp h
    have hs : s = "2024-01-09 23:59:59".toList := by
      have : recBefore.created_at = some "2024-01-09 23:59:59".toList := rfl
      rw [this] at hca
      exact (Option.some_injective _ hca.symm)
    subst hs
    have ht : t = ⟨2024, 1, 9, 23, 59, 59⟩ := by
      have : parse_created_at "2024-01-09 23:59:59".toList =
          some ⟨2024, 1, 9, 23, 59, 59⟩ := by decide
      rw [this] at hp
      exact (Option.some_injective _ hp).symm
    subst ht
    revert hle
    decide

/-! ## Claim C5 — no credentials on CDN requests -/

/-- C5: no variant ever sends the `Authorization` bearer header to a
cloud-share URL, and the CDN request is therefore identical for any two
session tokens (its bytes cannot depend on the token); the discovery
script's bare `requests.get` also omits the custom identifying
`User-Agent`.  (Amended from the original claim: the session-based scripts
(`download_all_python.py`, `download_all_linux.py`, `download_eodlevel2.py`)
do attach the client's identifying `User-Agent` to the CDN request, since
`headers={"Authorization": None}` removes only the bearer header — see the
counterexample.) -/
theorem spec_c5_cdn_headers (t t1 t2 : String) :
    (cdnRequestHeaders (allPythonSessionHeaders t)).authorization = none ∧
    cdnRequestHeaders (allPythonSessionHeaders t1) =
      cdnRequestHeaders (allPythonSessionHeaders t2) ∧
    discoveryCdnRequestHeaders.authorization = none ∧
    discoveryCdnRequestHeaders.userAgent = none :=
  ⟨rfl, rfl, rfl, rfl⟩

/-- C5 counterexample: the CDN request of `download_all_python.py` still
carries the client's identifying `User-Agent` header (the session merge
drops only the key mapped to `None`), refuting the claim's "without the
client's identifying header". -/
theorem spec_c5_counterexample :
    (cdnRequestHeaders (allPythonSessionHeaders "token0")).userAgent =
      some "DNFileVaultBulkDownloader/1.0" := rfl

/-! ## Claim C6 — first-healthy endpoint selection -/

/-- C6: `find_working_api` returns the first endpoint whose health probe is
HTTP 200 with an explicit `"healthy"` status; it probes exactly the prefix
of the list up to and including that endpoint (every earlier endpoint is
probed once and skipped, never retried); and the result is `none` exactly
when every endpoint's probe fails. -/
theorem spec_c6_select_healthy (probe : Str → ProbeResult) (es : List Str) :
    (find_working_api probe es).1 =
      es.find? (fun u => probeHealthy (probe (healthUrl u))) ∧
    (find_working_api probe es).2 =
      es.takeWhile (fun u => !probeHealthy (probe (healthUrl u))) ++
        (es.dropWhile (fun u => !probeHealthy (probe (healthUrl u)))).take 1 ∧
    ((find_working_api probe es).1 = none ↔
      ∀ u ∈ es, probeHealthy (probe (healthUrl u)) = false) := by
  induction es with
  | nil => simp [find_working_api]
  | cons a rest ih =>
    by_cases h : probeHealthy (probe (healthUrl a)) = true
    · refine ⟨?_, ?_, ?_⟩
      · simp [find_working_api, h, List.find?_cons]
      · simp [find_working_api, h, List.takeWhile_cons, List.dropWhile_cons]
      · simp [find_working_api, h]
    · refine ⟨?_, ?_, ?_⟩
      · simp [find_working_api, h, List.find?_cons, ih.1]
      · simp only [find_working_api, h, if_false, List.takeWhile_cons,
          List.dropWhile_cons]
        simp [h, ih.2.1]
      · simp [find_working_api, h, ih.2.2]

/-- C6 witness: the spec's failover example — endpoint A is down (connection
refused) and B is healthy, so `find_working_api` probes A then B and
returns B. -/
theorem spec_c6_witness :
    (find_working_api
        (fun u => if u = healthUrl "https://a.example".toList then .connError
          else .resp 200 (some (some "healthy".toList)))
        ["https://a.example".toList, "https://b.example".toList]).1 =
      some "https://b.example".toList ∧
    (find_working_api
        (fun u => if u = healthUrl "https://a.example".toList then .connError
          else .resp 200 (some (some "healthy".toList)))
        ["https://a.example".toList, "https://b.example".toList]).2 =
      ["https://a.example".toList, "https://b.example".toList] := by
  have h := spec_c6_select_healthy
    (fun u => if u = healthUrl "https://a.example".toList then .connError
      else .resp 200 (some (some "healthy".toList)))
    ["https://a.example".toList, "https://b.example".toList]
  exact ⟨h.1.trans (by decide), h.2.1.trans (by decide)⟩

/-! ## Claim C7 — endpoint resolution and fallback -/

/-- C7: every discovery failure — transport exception, non-200 status, or an
undecodable body — yields the fixed two-element `FALLBACK_ENDPOINTS` list
(in particular a non-empty list); on success the discovered entries are
sorted ascending by their priority key, where a missing priority defaults
to 99, and their urls are returned in that order.  (Amended from the
original claim: an entry with no priority sorts as 99, which is *not* last
when another entry has priority above 99, and a successful discovery whose
`endpoints` array is empty yields the empty list, so "never empty" fails —
see the counterexample.) -/
theorem spec_c7_endpoint_resolution :
    get_api_endpoints .exc = FALLBACK_ENDPOINTS ∧
    (∀ s eps, s ≠ 200 → get_api_endpoints (.resp s eps) = FALLBACK_ENDPOINTS) ∧
    get_api_endpoints (.resp 200 none) = FALLBACK_ENDPOINTS ∧
    FALLBACK_ENDPOINTS.length = 2 ∧
    (∀ entries : List EndpointEntry,
      List.Sorted prioLe (entries.insertionSort prioLe) ∧
      ∀ urls, (entries.insertionSort prioLe).mapM (fun e => e.url) = some urls →
        get_api_endpoints (.resp 200 (some entries)) = urls) := by
  refine ⟨rfl, ?_, rfl, rfl, fun entries => ⟨List.sorted_insertionSort prioLe entries, ?_⟩⟩
  · intro s eps h
    unfold get_api_endpoints
    split
    · rename_i heq
      injection heq with h1 h2
      exact absurd h1 h
    · rfl
  · intro urls h
    simp only [get_api_endpoints, h]

/-- C7 counterexample: a successful discovery whose `endpoints` array is
empty makes `get_api_endpoints` return the empty list (the claim says the
resolver never yields an empty list), and with entries of priority 100 and
no priority, the no-priority entry (defaulted to 99) sorts *first*, not
last. -/
theorem spec_c7_counterexample :
    get_api_endpoints (.resp 200 (some [])) = [] ∧
    get_api_endpoints (.resp 200 (some
        [⟨some "https://a.example".toList, some 100, none⟩,
         ⟨some "https://b.example".toList, none, none⟩])) =
      ["https://b.example".toList, "https://a.example".toList] := by
  constructor
  · rfl
  · decide

/-- C7 witness: concrete instances of `spec_c7_endpoint_resolution` — a 503
discovery answer falls back to the fixed list, and a successful discovery
returns urls sorted ascending by priority. -/
theorem spec_c7_witness :
    get_api_endpoints (.resp 503 none) = FALLBACK_ENDPOINTS ∧
    get_api_endpoints (.resp 200 (some
        [⟨some "https://a.example".toList, some 2, none⟩,
         ⟨some "https://c.example".toList, some 1, none⟩])) =
      ["https://c.example".toList, "https://a.example".toList] :=
  ⟨spec_c7_endpoint_resolution.2.1 503 none (by decide),
    (spec_c7_endpoint_resolution.2.2.2.2
        [⟨some "https://a.example".toList, some 2, none⟩,
         ⟨some "https://c.example".toList, some 1, none⟩]).2
      ["https://c.example".toList, "https://a.example".toList] (by decide)⟩

/-! ## Claim C8 — per-collection isolation of listing failures -/

theorem runGroups_append (net : Net) (lf : Nat → ListingResult)
    (cutoff : Option PyDateTime) (b o : Str) (fs : FS) (l1 l2 : List ApiGroup) :
    runGroups net lf cutoff b o fs (l1 ++ l2) =
      ((runGroups net lf cutoff b o (runGroups net lf cutoff b o fs l1).1 l2).1,
        (runGroups net lf cutoff b o fs l1).2 ++
          (runGroups net lf cutoff b o (runGroups net lf cutoff b o fs l1).1 l2).2) := by
  induction l1 generalizing fs with
  | nil => simp [runGroups]
  | cons g rest ih =>
    cases hgid : g.id with
    | none => simp [runGroups, hgid, ih]
    | some gid =>
      cases hlf : lf gid with
      | err => simp [runGroups, hgid, hlf, ih]
      | ok files => simp [runGroups, hgid, hlf, ih]

/-- C8: a listing failure is isolated to its collection — running the group
loop over `gs1 ++ g :: gs2` where `g`'s file-listing call fails produces
exactly the filesystem of the run over `gs1 ++ gs2` (no download of any
sibling is lost or altered), and the listing log shows `g` was attempted
and every sibling in `gs1` and `gs2` is still enumerated in order. -/
theorem spec_c8_listing_isolation (net : Net) (lf : Nat → ListingResult)
    (cutoff : Option PyDateTime) (b o : Str) (fs : FS)
    (gs1 gs2 : List ApiGroup) (g : ApiGroup) (gid : Nat)
    (hid : g.id = some gid) (herr : lf gid = .err) :
    (runGroups net lf cutoff b o fs (gs1 ++ g :: gs2)).1 =
      (runGroups net lf cutoff b o fs (gs1 ++ gs2)).1 ∧
    (runGroups net lf cutoff b o fs (gs1 ++ g :: gs2)).2 =
      (runGroups net lf cutoff b o fs gs1).2 ++
        gid :: (runGroups net lf cutoff b o
          (runGroups net lf cutoff b o fs gs1).1 gs2).2 := by
  have h1 := runGroups_append net lf cutoff b o fs gs1 (g :: gs2)
  have h2 := runGroups_append net lf cutoff b o fs gs1 gs2
  have hg : ∀ fs0 : FS, runGroups net lf cutoff b o fs0 (g :: gs2) =
      ((runGroups net lf cutoff b o fs0 gs2).1,
        gid :: (runGroups net lf cutoff b o fs0 gs2).2) := by
    intro fs0
    simp [runGroups, hid, herr]
  constructor
  · rw [h1, h2, hg]
  · rw [h1, hg]

/-- C8 witness: with groups 1, 2, 3 where only group 2's listing fails, the
run produces the same filesystem as the run over groups 1 and 3 alone, and
the listing log still enumerates group 3 after the failure. -/
theorem spec_c8_witness :
    (runGroups c8net c8lf none "https://api.example".toList "/out".toList fsEmpty
        [c8g1, c8gBad, c8g3]).1 =
      (runGroups c8net c8lf none "https://api.example".toList "/out".toList fsEmpty
        [c8g1, c8g3]).1 ∧
    (runGroups c8net c8lf none "https://api.example".toList "/out".toList fsEmpty
        [c8g1, c8gBad, c8g3]).2 =
      (runGroups c8net c8lf none "https://api.example".toList "/out".toList fsEmpty
          [c8g1]).2 ++
        2 :: (runGroups c8net c8lf none "https://api.example".toList "/out".toList
          (runGroups c8net c8lf none "https://api.example".toList "/out".toList fsEmpty
            [c8g1]).1 [c8g3]).2 :=
  spec_c8_listing_isolation c8net c8lf none "https://api.example".toList "/out".toList
    fsEmpty [c8g1] [c8g3] c8gBad 2 rfl rfl

/-! ## Claim C1 — fetch idempotence -/

theorem download_file_api_downloaded {net : Net} {base : Str} {uuid : Option Str}
    {full : Str} {fs : FS} {reqs : List Req} {src : Source} {fs1 : FS}
    {reqs1 : List Req}
    (h : download_file_api net base uuid full fs reqs = (.downloaded src, fs1, reqs1)) :
    (fs1 full).isSome = true := by
  unfold download_file_api at h
  rcases huuid : truthyStr uuid with _ | u
  · rw [huuid] at h
    simp at h
  · rw [huuid] at h
    dsimp only at h
    rcases horig : net.origin (base ++ "/download/".toList ++ u) with _ | ⟨s, ch, intr⟩
    · rw [horig] at h
      simp at h
    · rw [horig] at h
      dsimp only at h
      by_cases hs : s = 200
      · rw [if_pos hs] at h
        cases intr
        · simp only [save_content, if_neg (Bool.false_ne_true)] at h
          simp at h
          rw [← h.2.1]
          simp [renameReplace, setFile]
        · simp only [save_content, if_pos rfl] at h
          simp at h
      · rw [if_neg hs] at h
        simp at h

theorem download_file_downloaded_target {net : Net} {base : Str} {f : FileRecord}
    {dir : Str} {fs : FS} {src : Source} {fs1 : FS} {reqs1 : List Req}
    (h : download_file net base f dir fs = (.downloaded src, fs1, reqs1)) :
    (fs1 (downloadFileTarget f dir)).isSome = true := by
  unfold download_file at h
  unfold downloadFileTarget
  by_cases hex :
      (fs (pathJoin dir (sanitize_filename (pyOrOpt f.display_name f.uuid_filename)))).isSome = true
  · rw [if_pos hex] at h
    simp at h
  · rw [if_neg hex] at h
    rcases hcl : truthyStr f.cloud_share_link with _ | curl
    · rw [hcl] at h
      exact download_file_api_downloaded h
    · rw [hcl] at h
      dsimp only at h
      rcases hcdn : net.cdn curl with _ | ⟨s, ch, intr⟩
      · rw [hcdn] at h
        exact download_file_api_downloaded h
      · rw [hcdn] at h
        dsimp only at h
        by_cases hs : s = 200
        · rw [if_pos hs] at h
          cases intr
          · simp only [save_content, if_neg (Bool.false_ne_true)] at h
            simp at h
            rw [← h.2.1]
            simp [renameReplace, setFile]
          · simp only [save_content, if_pos rfl] at h
            exact download_file_api_downloaded h
        · rw [if_neg hs] at h
          exact download_file_api_downloaded h

/-- C1: the fetch is idempotent.  If the resolved target path already exists
on disk, `download_file` returns `Skipped` without touching the filesystem
and with an empty request log (no network call); if a first run returns
`Downloaded`, a second run over the resulting filesystem returns `Skipped`,
leaves that filesystem untouched (so the file's bytes are identical after
both runs), and issues no request; and `download_stream` of the groups
script likewise returns immediately when its output path exists. -/
theorem spec_c1_fetch_idempotent (net : Net) (base : Str) (f : FileRecord)
    (dir : Str) (fs : FS) :
    ((fs (downloadFileTarget f dir)).isSome = true →
      download_file net base f dir fs = (.skipped, fs, [])) ∧
    (∀ src fs1 reqs1, download_file net base f dir fs = (.downloaded src, fs1, reqs1) →
      download_file net base f dir fs1 = (.skipped, fs1, [])) ∧
    (∀ url out b, fs out = some b → download_stream net url out fs = (.skip, fs, [])) := by
  have hskip : ∀ fs0 : FS, (fs0 (downloadFileTarget f dir)).isSome = true →
      download_file net base f dir fs0 = (.skipped, fs0, []) := by
    intro fs0 h
    unfold downloadFileTarget at h
    simp only [download_file]
    rw [if_pos h]
  refine ⟨hskip fs, ?_, ?_⟩
  · intro src fs1 reqs1 h
    exact hskip fs1 (download_file_downloaded_target h)
  · intro url out b hb
    simp [download_stream, hb]

/-- C1 witness: with the target already on disk the fetch is skipped and no
request is issued; and after a successful first download of `w1rec` the
second run is skipped over the unchanged filesystem. -/
theorem spec_c1_witness :
    download_file w1net "https://api.example".toList w1rec "/out".toList w1fsHave =
      (.skipped, w1fsHave, []) ∧
    download_file w1net "https://api.example".toList w1rec "/out".toList
        (download_file w1net "https://api.example".toList w1rec "/out".toList fsEmpty).2.1 =
      (.skipped,
        (download_file w1net "https://api.example".toList w1rec "/out".toList fsEmpty).2.1,
        []) :=
  ⟨(spec_c1_fetch_idempotent w1net "https://api.example".toList w1rec "/out".toList
      w1fsHave).1 (by decide),
    (spec_c1_fetch_idempotent w1net "https://api.example".toList w1rec "/out".toList
      fsEmpty).2.1 .cdn
      (download_file w1net "https://api.example".toList w1rec "/out".toList fsEmpty).2.1
      (download_file w1net "https://api.example".toList w1rec "/out".toList fsEmpty).2.2
      rfl⟩

/-! ## Claim C2 — CDN failure triggers exactly one origin fallback -/

theorem download_file_api_behavior (net : Net) (base : Str) (u : Str) (full : Str)
    (fs : FS) (reqs : List Req) (hune : u ≠ []) :
    (download_file_api net base (some u) full fs reqs).2.2 =
      reqs ++ [.originGet (base ++ "/download/".toList ++ u)] ∧
    (∀ chunks, net.origin (base ++ "/download/".toList ++ u) = .resp 200 chunks false →
      (download_file_api net base (some u) full fs reqs).1 = .downloaded .origin ∧
      (download_file_api net base (some u) full fs reqs).2.1 full =
        some ((chunks.filter (fun c => c ≠ [])).flatten)) := by
  unfold download_file_api truthyStr
  dsimp only
  rw [if_neg hune]
  dsimp only
  rcases horig : net.origin (base ++ "/download/".toList ++ u) with _ | ⟨s, ch, intr⟩
  · exact ⟨rfl, fun chunks hc => absurd hc (by simp)⟩
  · dsimp only
    by_cases hs : s = 200
    · rw [if_pos hs]
      cases intr
      · simp only [save_content, if_neg (Bool.false_ne_true)]
        refine ⟨by trivial, fun chunks hc => ?_⟩
        injection hc with h1 h2 h3
        subst h2
        exact ⟨by trivial, by simp [renameReplace, setFile]⟩
      · simp only [save_content, if_pos rfl]
        refine ⟨by trivial, fun chunks hc => ?_⟩
        injection hc with h1 h2 h3
        exact absurd h3 (by simp)
    · rw [if_neg hs]
      refine ⟨by trivial, fun chunks hc => ?_⟩
      injection hc with h1 h2 h3
      exact absurd h1 hs

/-- C2: for a record carrying both a cloud link and a download identifier,
with the final path absent, any failing CDN attempt (non-200 status,
transport exception, or mid-stream interruption) is not fatal: the request
log is exactly the CDN attempt followed by one authenticated origin attempt
on `{base_url}/download/{uuid}`, and if that origin request answers a
complete HTTP 200 body the outcome is `Downloaded` with the final file
holding exactly the origin stream's bytes.  (Amended from the original
claim: when `uuid_filename` is missing the fallback is *not* attempted and
the fetch fails — see the counterexample.) -/
theorem spec_c2_fallback (net : Net) (base : Str) (f : FileRecord) (dir : Str)
    (fs : FS) (curl u : Str)
    (hcl : f.cloud_share_link = some curl) (hcne : curl ≠ [])
    (huuid : f.uuid_filename = some u) (hune : u ≠ [])
    (habsent : (fs (downloadFileTarget f dir)).isSome = false)
    (hfail : cdnFails (net.cdn curl) = true) :
    (download_file net base f dir fs).2.2 =
      [.cdnGet curl, .originGet (base ++ "/download/".toList ++ u)] ∧
    (∀ chunks, net.origin (base ++ "/download/".toList ++ u) = .resp 200 chunks false →
      (download_file net base f dir fs).1 = .downloaded .origin ∧
      (download_file net base f dir fs).2.1 (downloadFileTarget f dir) =
        some ((chunks.filter (fun c => c ≠ [])).flatten)) := by
  unfold downloadFileTarget at habsent ⊢
  unfold download_file
  rw [huuid]
  rw [show truthyStr f.cloud_share_link = some curl by rw [hcl]; simp [truthyStr, hcne]]
  dsimp only
  rw [Bool.eq_false_iff] at habsent
  rw [huuid] at habsent
  rw [if_neg habsent]
  rcases hcdn : net.cdn curl with _ | ⟨s, ch, intr⟩
  · exact download_file_api_behavior net base u _ fs [.cdnGet curl] hune
  · rw [hcdn] at hfail
    dsimp only
    by_cases hs : s = 200
    · rw [if_pos hs]
      have hintr : intr = true := by
        subst hs
        simpa [cdnFails] using hfail
      subst hintr
      simp only [save_content, if_pos rfl]
      exact download_file_api_behavior net base u _ _ [.cdnGet curl] hune
    · rw [if_neg hs]
      exact download_file_api_behavior net base u _ fs [.cdnGet curl] hune

/-- C2 counterexample: a record that carries a cloud link but no
`uuid_filename` gets *no* fallback attempt after the CDN answers 404 — the
fetch fails with `NoDownloadIdentifier` and the request log holds zero
origin attempts, where the claim demands exactly one. -/
theorem spec_c2_counterexample :
    (download_file c2net "https://api.example".toList c2rec "/out".toList fsEmpty).1 =
      .failed .noDownloadIdentifier ∧
    originAttempts
      (download_file c2net "https://api.example".toList c2rec "/out".toList fsEmpty).2.2 = 0 := by
  constructor
  · rfl
  · rfl

/-- C2 witness: with the CDN answering 404 and the origin streaming chunks
`[7]` and `[8]`, the fetch issues exactly one origin attempt and the final
file holds the origin bytes `[7, 8]`. -/
theorem spec_c2_witness :
    (download_file w2net "https://api.example".toList w2rec "/out".toList fsEmpty).2.2 =
      [.cdnGet "https://r2.example/y".toList,
        .originGet ("https://api.example".toList ++ "/download/".toList ++ "u-2".toList)] ∧
    (download_file w2net "https://api.example".toList w2rec "/out".toList fsEmpty).1 =
      .downloaded .origin ∧
    (download_file w2net "https://api.example".toList w2rec "/out".toList fsEmpty).2.1
      (downloadFileTarget w2rec "/out".toList) = some [7, 8] := by
  obtain ⟨h1, h2⟩ := spec_c2_fallback w2net "https://api.example".toList w2rec
    "/out".toList fsEmpty "https://r2.example/y".toList "u-2".toList
    rfl (by decide) rfl (by decide) rfl rfl
  exact ⟨h1, (h2 [[7], [8]] rfl).1, (h2 [[7], [8]] rfl).2⟩

/-! ## Claim C3 — temp-file streaming and cleanup on failure -/

theorem append_dotPart_ne (out : Str) : out ++ dotPart ≠ out := by
  intro h
  have := congrArg List.length h
  simp [dotPart] at this

/-- C3: in `download_stream` of `download_groups_linux.py`, the body is
streamed to the temporary path `out_path + ".part"` in the same directory
and only renamed onto the final path after the complete body was written;
on any failure — transport exception, HTTP error status, or mid-stream
interruption — the temporary file is removed and the final path stays
absent, so no partial final file and no `.part` artifact remains.  (Amended
from the original claim, which asserted this for *every* fetch attempt:
`download_eodlevel2.py` streams directly to the final path with no
temporary file at all, and `save_content` of
`download_allfiles_linux_discovery.py` leaves its `.tmp` file behind when
the stream dies — see the counterexample.) -/
theorem spec_c3_stream_cleanup (net : Net) (url out : Str) (fs : FS)
    (hab : fs out = none) :
    ((download_stream net url out fs).1 = .error →
      (download_stream net url out fs).2.1 (out ++ dotPart) = none ∧
      (download_stream net url out fs).2.1 out = none) ∧
    ((download_stream net url out fs).1 = .success →
      ∃ status chunks, net.origin url = .resp status chunks false ∧ status < 400 ∧
        (download_stream net url out fs).2.1 out =
          some ((chunks.filter (fun c => c ≠ [])).flatten) ∧
        (download_stream net url out fs).2.1 (out ++ dotPart) = none) := by
  have hne := append_dotPart_ne out
  unfold download_stream
  rw [if_neg (by simp [hab])]
  rcases horig : net.origin url with _ | ⟨s, ch, intr⟩
  · refine ⟨fun _ => ⟨?_, ?_⟩, fun hsu => by simp at hsu⟩
    · simp [removeFile]
    · simp [removeFile, hne, hab]
  · dsimp only
    by_cases hs : 400 ≤ s
    · rw [if_pos hs]
      refine ⟨fun _ => ⟨?_, ?_⟩, fun hsu => by simp at hsu⟩
      · simp [removeFile]
      · simp [removeFile, hne, hab]
    · rw [if_neg hs]
      cases intr
      · refine ⟨fun herr => by simp at herr, fun _ => ⟨s, ch, rfl, by omega, ?_, ?_⟩⟩
        · simp [renameReplace, setFile, hne]
        · simp [renameReplace, setFile, hne]
      · refine ⟨fun _ => ⟨?_, ?_⟩, fun hsu => by simp at hsu⟩
        · simp [removeFile]
        · simp [removeFile, setFile, hne, hab]

/-- C3 counterexample: in the discovery script, a CDN answer of HTTP 200
whose stream dies after one chunk leaves the partial `.tmp` file on disk
(`save_content` writes `full + ".tmp"` and the caller's `except` performs no
cleanup); with no `uuid_filename` the fetch then fails — yet
`/out/data.csv.tmp` still holds the partial bytes, where the claim says no
`.tmp` artifact may remain after a failed attempt. -/
theorem spec_c3_counterexample :
    (download_file c3net "https://api.example".toList c3rec "/out".toList fsEmpty).1 =
      .failed .noDownloadIdentifier ∧
    (download_file c3net "https://api.example".toList c3rec "/out".toList fsEmpty).2.1
      "/out/data.csv.tmp".toList = some [1, 2, 3] := by
  constructor
  · rfl
  · rfl

/-- C3 witness: concrete instances of `spec_c3_stream_cleanup` — after a
transport exception neither the `.part` file nor the final file exists, and
after a complete 200 stream the final file holds the joined chunks with the
`.part` file gone. -/
theorem spec_c3_witness :
    ((download_stream w3netErr w3url w3out fsEmpty).2.1 (w3out ++ dotPart) = none ∧
      (download_stream w3netErr w3url w3out fsEmpty).2.1 w3out = none) ∧
    (∃ status chunks, w3netOk.origin w3url = .resp status chunks false ∧ status < 400 ∧
      (download_stream w3netOk w3url w3out fsEmpty).2.1 w3out =
        some ((chunks.filter (fun c => c ≠ [])).flatten) ∧
      (download_stream w3netOk w3url w3out fsEmpty).2.1 (w3out ++ dotPart) = none) :=
  ⟨(spec_c3_stream_cleanup w3netErr w3url w3out fsEmpty rfl).1 rfl,
    (spec_c3_stream_cleanup w3netOk w3url w3out fsEmpty rfl).2 rfl⟩
